import Mathlib

/-!
# The FHIR resource handlers (`server` package)

A shallow embedding of the fifteen HTTP handlers of `server/enrollmentrequest.go`,
`server/operationoutcome.go` and `server/relatedperson.go`, with the libraries they call
(`net/http`, `encoding/hex`, `gopkg.in/mgo.v2/bson`, `gorilla/context`) modelled as far as the
handlers use them, and the collaborators they reach (the document store, the search compiler,
the JSON codec, the identifier generator, the host name) taken as parameters.
-/

set_option autoImplicit false
set_option linter.dupNamespace false

namespace Fhir

/-! ## `encoding/hex` and `bson.ObjectId` -/

/-- The function `fromHexChar` of `encoding/hex`: the value of one hexadecimal digit, in either
case, and nothing for any other character. -/
def fromHexChar (c : Char) : Option Nat :=
  if '0' ≤ c ∧ c ≤ '9' then some (c.toNat - '0'.toNat)
  else if 'a' ≤ c ∧ c ≤ 'f' then some (c.toNat - 'a'.toNat + 10)
  else if 'A' ≤ c ∧ c ≤ 'F' then some (c.toNat - 'A'.toNat + 10)
  else none

/-- The loop of `hex.Decode`: the input is read two digits at a time, each pair giving the byte
`(a << 4) | b`; an invalid digit or a digit left alone at the end is an error (`none`). -/
def hexDecodeChars : List Char → Option (List Nat)
  | [] => some []
  | [_] => none
  | p :: q :: rest =>
    match fromHexChar p, fromHexChar q with
    | some a, some b =>
      match hexDecodeChars rest with
      | some d => some ((a * 16 + b) :: d)
      | none => none
    | _, _ => none

/-- The function `hex.DecodeString`. -/
def hexDecodeString (s : String) : Option (List Nat) :=
  hexDecodeChars s.toList

/-- The constant `hextable` of `encoding/hex`. -/
def hextable : List Char := "0123456789abcdef".toList

/-- The loop of `hex.Encode`: each byte `v` gives `hextable[v >> 4]` then `hextable[v & 0x0f]`. -/
def hexEncodeChars : List Nat → List Char
  | [] => []
  | v :: rest => hextable.getD (v / 16) '0' :: hextable.getD (v % 16) '0' :: hexEncodeChars rest

/-- The function `hex.EncodeToString`. -/
def hexEncodeToString (d : List Nat) : String :=
  String.mk (hexEncodeChars d)

/-- The type `bson.ObjectId`: a string of raw bytes, twelve of them for an identifier and none
for the zero value that `var id bson.ObjectId` declares. -/
abbrev ObjectId := List Nat

/-- The function `bson.IsObjectIdHex`: the string is 24 bytes long and decodes as hexadecimal. -/
def IsObjectIdHex (s : String) : Bool :=
  if s.utf8ByteSize ≠ 24 then false
  else (hexDecodeString s).isSome

/-- The function `bson.ObjectIdHex`. The source panics where the string does not decode to twelve
bytes; every call in the handlers stands under the guard `bson.IsObjectIdHex`, which is the
argument `h` here, so the panic has no case. -/
def ObjectIdHex (s : String) (_h : IsObjectIdHex s = true) : ObjectId :=
  match hexDecodeString s with
  | some d => d
  | none => []

/-- The method `ObjectId.Hex`. -/
def ObjectId.Hex (id : ObjectId) : String :=
  hexEncodeToString id

/-! ## `net/http`: the response writer -/

/-- The type `http.Header`, a map from header name to values. The handlers name every header in
canonical form already. -/
abbrev Header := List (String × List String)

/-- The method `Header.Get`: the first value under the key, or the empty string. -/
def Header.Get (h : Header) (key : String) : String :=
  match h.lookup key with
  | some (v :: _) => v
  | _ => ""

/-- The method `Header.Set`: the key holds the single value afterwards. -/
def Header.Set (h : Header) (key value : String) : Header :=
  (key, [value]) :: h.filter (fun p => p.1 != key)

/-- The method `Header.Add`: the value is appended to those under the key. -/
def Header.Add (h : Header) (key value : String) : Header :=
  match h.lookup key with
  | some vs => (key, vs ++ [value]) :: h.filter (fun p => p.1 != key)
  | none => (key, [value]) :: h

/-- The state of an `http.ResponseWriter`: the header map the handler edits, whether the status
line has gone out, the status and the headers that went out with it, and the body written. -/
structure ResponseWriter where
  header : Header
  wroteHeader : Bool
  status : Nat
  sent : Header
  body : String
  deriving DecidableEq, Repr

/-- The writer a request starts with. -/
def ResponseWriter.fresh : ResponseWriter :=
  { header := [], wroteHeader := false, status := 0, sent := [], body := "" }

/-- The method `WriteHeader`: the first call fixes the status and sends the header map as it
stands; a later call is superfluous and changes nothing. -/
def ResponseWriter.WriteHeader (rw : ResponseWriter) (code : Nat) : ResponseWriter :=
  if rw.wroteHeader then rw
  else { rw with wroteHeader := true, status := code, sent := rw.header }

/-- The method `Write`: a write before any `WriteHeader` sends status 200 first. -/
def ResponseWriter.Write (rw : ResponseWriter) (data : String) : ResponseWriter :=
  let rw1 := if rw.wroteHeader then rw else rw.WriteHeader 200
  { rw1 with body := rw1.body ++ data }

/-- The function `http.Error`: plain-text content type, `nosniff`, the status, then the message
and a newline (`fmt.Fprintln`). -/
def ResponseWriter.Error (rw : ResponseWriter) (error : String) (code : Nat) : ResponseWriter :=
  let h1 := rw.header.Set "Content-Type" "text/plain; charset=utf-8"
  let h2 := h1.Set "X-Content-Type-Options" "nosniff"
  ({ rw with header := h2 }.WriteHeader code).Write (error ++ "\n")

/-- What the server sends when the handler returns: a handler that wrote nothing gets status 200
with the header map as the handler left it. -/
def ResponseWriter.finish (rw : ResponseWriter) : ResponseWriter :=
  if rw.wroteHeader then rw else rw.WriteHeader 200

/-! ## The data model -/

/-- A resource record of one kind: the `Id` field the handlers assign and the kind's other
fields, which the handlers never read. -/
structure Resource (α : Type) where
  Id : String
  payload : α
  deriving DecidableEq, Repr

/-- Modelled from the spec: one issue of the type `models.OperationOutcome`, which is declared
outside the three source files; the spec gives its `severity` and `code` (section 3). -/
structure OperationOutcomeIssueComponent where
  Severity : String
  Code : String
  deriving DecidableEq, Repr

/-- Modelled from the spec: the error body `models.OperationOutcome`, declared outside the three
source files, with its list `issue[]` (section 3). -/
structure OperationOutcome where
  Issue : List OperationOutcomeIssueComponent
  deriving DecidableEq, Repr

/-- The type `models.BundleEntryComponent`, as far as the index handler fills it. -/
structure BundleEntryComponent (α : Type) where
  Resource : Resource α
  deriving DecidableEq, Repr

/-- The type `models.Bundle`, as far as the index handler fills it. `Total` is a `uint32`. -/
structure Bundle (α : Type) where
  Id : String
  Type_ : String
  Total : Nat
  Entry : List (BundleEntryComponent α)
  deriving DecidableEq, Repr

/-- The types `models.OperationOutcomeBundle` and `models.RelatedPersonBundle`. `TotalResults`
is an `int`, as `len` is; `Updated` is the time read from the clock. -/
structure LegacyBundle (α : Type) where
  Type_ : String
  Title : String
  Id : String
  Updated : Nat
  TotalResults : Nat
  Entries : List (Resource α)
  deriving DecidableEq, Repr

/-- The type `search.Query`. -/
structure Query where
  Resource : String
  Query : String
  deriving DecidableEq, Repr

/-- The type `search.Error`, with the two fields the recovery guard reads. -/
structure SearchError where
  HTTPStatus : Nat
  OperationOutcome : OperationOutcome
  deriving DecidableEq, Repr

/-- A value recovered from a panic: a typed search error or anything else. -/
inductive Recovered where
  | searchError (x : SearchError)
  | other (description : String)
  deriving DecidableEq, Repr

/-- The values of type `interface{}` that the handlers store in the request context and hand to
the JSON encoder. -/
inductive Value (α : Type) where
  | null
  | str (s : String)
  | resource (r : Resource α)
  | resources (rs : List (Resource α))
  | bundle (b : Bundle α)
  | legacyBundle (b : LegacyBundle α)
  | outcome (o : OperationOutcome)
  deriving DecidableEq, Repr

/-- The parts of `*http.Request` the handlers read: the path variable `mux.Vars(r)["id"]` (empty
when the route has none), `r.URL.RawQuery` and the body. -/
structure Request where
  id : String
  RawQuery : String
  Body : String
  deriving DecidableEq, Repr

/-! ## The collaborators -/

/-- One collection of the document store, `Database.C(name)`, over a store state `σ`: the five
calls the handlers make. A call that fails gives the error text. `FindLimitAll n` is
`c.Find(nil).Limit(n).Iter().All(&result)`, which leaves the records read so far in `result`
also when it fails; `FindOne id` is `c.Find(bson.M{"_id": id}).One(&result)`. -/
structure Collection (σ ρ : Type) where
  FindLimitAll : σ → Nat → List ρ × Option String
  FindOne : σ → String → Except String ρ
  Insert : σ → ρ → σ × Option String
  Update : σ → String → ρ → σ × Option String
  Remove : σ → String → σ × Option String

/-- A call a handler makes to the store or to the search compiler, as recorded in the trace. -/
inductive Call (α : Type) where
  | FindLimitAll (limit : Nat)
  | FindOne (id : String)
  | Insert (doc : Resource α)
  | Update (key : String) (doc : Resource α)
  | Remove (key : String)
  | CreateQuery (query : Query)
  deriving DecidableEq, Repr

/-- Everything outside the handlers that a request meets.
* `c`: the collection of the resource kind;
* `CreateQueryAll`: `search.NewMongoSearcher(Database).CreateQuery(query).All(&result)`;
* `raises`: whether a call to the store or the search compiler panics, and with what value,
  instead of returning;
* `ParseForm`: the map `r.Form` that `r.ParseForm()` leaves, as key and values;
* `Decode`: what `json.NewDecoder(r.Body).Decode` leaves in a zero record, and its error;
* `NewObjectId`: the identifier `bson.NewObjectId()` yields;
* `Hostname`: the result of `os.Hostname()`;
* `Now`: the clock;
* `Marshal`: the JSON text of a value. -/
structure Env (σ α : Type) where
  c : Collection σ (Resource α)
  CreateQueryAll : σ → Query → List (Resource α) × Option String
  raises : σ → Call α → Option Recovered
  ParseForm : Request → List (String × List String)
  Decode : String → Resource α × Option String
  NewObjectId : ObjectId
  Hostname : String × Option String
  Now : Nat
  Marshal : Value α → String

/-- The state a handler runs in: the response writer, the context of the request
(`gorilla/context`), the store, and two traces, of the calls made to the store and the search
compiler and of the values handed to the JSON encoder. -/
structure World (σ α : Type) where
  rw : ResponseWriter
  ctx : List (String × Value α)
  db : σ
  calls : List (Call α)
  encoded : List (Value α)

variable {σ α : Type}

/-- The state at the start of a request over the store `db`. -/
def World.init (db : σ) : World σ α :=
  { rw := ResponseWriter.fresh, ctx := [], db := db, calls := [], encoded := [] }

/-- The call `http.Error(rw, error, code)`. -/
def World.Error (w : World σ α) (error : String) (code : Nat) : World σ α :=
  { w with rw := w.rw.Error error code }

/-- The call `rw.Header().Set(key, value)`. -/
def World.HeaderSet (w : World σ α) (key value : String) : World σ α :=
  { w with rw := { w.rw with header := w.rw.header.Set key value } }

/-- The call `rw.Header().Add(key, value)`. -/
def World.HeaderAdd (w : World σ α) (key value : String) : World σ α :=
  { w with rw := { w.rw with header := w.rw.header.Add key value } }

/-- The call `rw.WriteHeader(code)`. -/
def World.WriteHeader (w : World σ α) (code : Nat) : World σ α :=
  { w with rw := w.rw.WriteHeader code }

/-- The call `json.NewEncoder(rw).Encode(v)`: the JSON text and a newline are written. -/
def World.Encode (w : World σ α) (env : Env σ α) (v : Value α) : World σ α :=
  { w with rw := w.rw.Write (env.Marshal v ++ "\n"), encoded := w.encoded ++ [v] }

/-- The call `context.Set(r, key, val)`. -/
def World.contextSet (w : World σ α) (key : String) (val : Value α) : World σ α :=
  { w with ctx := (key, val) :: w.ctx.filter (fun p => p.1 != key) }

/-- The call `context.Get(r, key)`: `nil` where the key is not set. -/
def World.contextGet (w : World σ α) (key : String) : Value α :=
  match w.ctx.lookup key with
  | some v => v
  | none => Value.null

/-- A call to the store or the search compiler enters the trace. -/
def World.call (w : World σ α) (c : Call α) : World σ α :=
  { w with calls := w.calls ++ [c] }

/-- The response the client gets once the handler has returned. -/
def World.response (w : World σ α) : ResponseWriter :=
  w.rw.finish

/-! ## `server/enrollmentrequest.go` -/

/-- The body of `EnrollmentRequestIndexHandler` (lines 41 to 81). A panic of the store's list
call or of the search compiler ends it with the recovered value and the state reached. -/
def EnrollmentRequestIndexBody (env : Env σ α) (r : Request) (w : World σ α) :
    Except (Recovered × World σ α) (World σ α) :=
  let found : Except (Recovered × World σ α) (List (Resource α) × World σ α) :=
    if (env.ParseForm r).length = 0 then
      let w1 := w.call (Call.FindLimitAll 100)
      match env.raises w1.db (Call.FindLimitAll 100) with
      | some x => Except.error (x, w1)
      | none =>
        let res := env.c.FindLimitAll w1.db 100
        match res.2 with
        | some err => Except.ok (res.1, w1.Error err 500)
        | none => Except.ok (res.1, w1)
    else
      let query : Query := { Resource := "EnrollmentRequest", Query := r.RawQuery }
      let w1 := w.call (Call.CreateQuery query)
      match env.raises w1.db (Call.CreateQuery query) with
      | some x => Except.error (x, w1)
      | none =>
        let res := env.CreateQueryAll w1.db query
        match res.2 with
        | some err => Except.ok (res.1, w1.Error err 500)
        | none => Except.ok (res.1, w1)
  match found with
  | Except.error e => Except.error e
  | Except.ok (result, w2) =>
    let enrollmentrequestEntryList : List (BundleEntryComponent α) :=
      result.map (fun x => { Resource := x })
    let bundle : Bundle α :=
      { Id := env.NewObjectId.Hex
        Type_ := "searchset"
        Total := result.length % 2 ^ 32
        Entry := enrollmentrequestEntryList }
    let w3 := w2.contextSet "EnrollmentRequest" (Value.resources result)
    let w4 := w3.contextSet "Resource" (Value.str "EnrollmentRequest")
    let w5 := w4.contextSet "Action" (Value.str "search")
    let w6 := w5.HeaderSet "Content-Type" "application/json; charset=utf-8"
    let w7 := w6.HeaderSet "Access-Control-Allow-Origin" "*"
    Except.ok (w7.Encode env (Value.bundle bundle))

/-- The deferred function of `EnrollmentRequestIndexHandler` (lines 18 to 39), run on a
recovered value. -/
def EnrollmentRequestIndexRecover (env : Env σ α) (x : Recovered) (w : World σ α) : World σ α :=
  let w1 := w.HeaderSet "Content-Type" "application/json; charset=utf-8"
  match x with
  | Recovered.searchError x =>
    (w1.WriteHeader x.HTTPStatus).Encode env (Value.outcome x.OperationOutcome)
  | Recovered.other _ =>
    let outcome : OperationOutcome :=
      { Issue := [{ Severity := "fatal", Code := "exception" }] }
    (w1.WriteHeader 500).Encode env (Value.outcome outcome)

/-- The handler `EnrollmentRequestIndexHandler`: the body under its recovery guard. -/
def EnrollmentRequestIndexHandler (env : Env σ α) (r : Request) (w : World σ α) : World σ α :=
  match EnrollmentRequestIndexBody env r w with
  | Except.ok w1 => w1
  | Except.error (x, w1) => EnrollmentRequestIndexRecover env x w1

/-- The function `LoadEnrollmentRequest`. -/
def LoadEnrollmentRequest (env : Env σ α) (r : Request) (w : World σ α) :
    Except String (Resource α) × World σ α :=
  let idString := r.id
  if h : IsObjectIdHex idString = true then
    let id := ObjectIdHex idString h
    let w1 := w.call (Call.FindOne id.Hex)
    match env.c.FindOne w1.db id.Hex with
    | Except.error err => (Except.error err, w1)
    | Except.ok result =>
      let w2 := w1.contextSet "EnrollmentRequest" (Value.resource result)
      let w3 := w2.contextSet "Resource" (Value.str "EnrollmentRequest")
      (Except.ok result, w3)
  else
    (Except.error "Invalid id", w)

/-- The handler `EnrollmentRequestShowHandler`. -/
def EnrollmentRequestShowHandler (env : Env σ α) (r : Request) (w : World σ α) : World σ α :=
  let w1 := w.contextSet "Action" (Value.str "read")
  let loaded := LoadEnrollmentRequest env r w1
  let w2 :=
    match loaded.1 with
    | Except.error err => loaded.2.Error err 500
    | Except.ok _ => loaded.2
  let w3 := w2.HeaderSet "Content-Type" "application/json; charset=utf-8"
  let w4 := w3.HeaderSet "Access-Control-Allow-Origin" "*"
  w4.Encode env (w4.contextGet "EnrollmentRequest")

/-- The handler `EnrollmentRequestCreateHandler`. -/
def EnrollmentRequestCreateHandler (env : Env σ α) (r : Request) (w : World σ α) : World σ α :=
  let decoded := env.Decode r.Body
  let w1 :=
    match decoded.2 with
    | some err => w.Error err 500
    | none => w
  let i := env.NewObjectId
  let enrollmentrequest : Resource α := { decoded.1 with Id := i.Hex }
  let w2 := w1.call (Call.Insert enrollmentrequest)
  let inserted := env.c.Insert w2.db enrollmentrequest
  let w3 : World σ α := { w2 with db := inserted.1 }
  let w4 :=
    match inserted.2 with
    | some err => w3.Error err 500
    | none => w3
  let w5 := w4.contextSet "EnrollmentRequest" (Value.resource enrollmentrequest)
  let w6 := w5.contextSet "Resource" (Value.str "EnrollmentRequest")
  let w7 := w6.contextSet "Action" (Value.str "create")
  let host := env.Hostname.1
  let w8 :=
    match env.Hostname.2 with
    | some err => w7.Error err 500
    | none => w7
  let w9 := w8.HeaderAdd "Location" ("http://" ++ host ++ ":3001/EnrollmentRequest/" ++ i.Hex)
  let w10 := w9.HeaderSet "Content-Type" "application/json; charset=utf-8"
  let w11 := w10.HeaderSet "Access-Control-Allow-Origin" "*"
  let w12 := w11.WriteHeader 201
  w12.Encode env (Value.resource enrollmentrequest)

/-- The handler `EnrollmentRequestUpdateHandler`. -/
def EnrollmentRequestUpdateHandler (env : Env σ α) (r : Request) (w : World σ α) : World σ α :=
  let idString := r.id
  let checked : ObjectId × World σ α :=
    if h : IsObjectIdHex idString = true then (ObjectIdHex idString h, w)
    else ([], w.Error "Invalid id" 400)
  let id := checked.1
  let decoded := env.Decode r.Body
  let w1 :=
    match decoded.2 with
    | some err => checked.2.Error err 500
    | none => checked.2
  let enrollmentrequest : Resource α := { decoded.1 with Id := id.Hex }
  let w2 := w1.call (Call.Update id.Hex enrollmentrequest)
  let updated := env.c.Update w2.db id.Hex enrollmentrequest
  let w3 : World σ α := { w2 with db := updated.1 }
  let w4 :=
    match updated.2 with
    | some err => w3.Error err 500
    | none => w3
  let w5 := w4.contextSet "EnrollmentRequest" (Value.resource enrollmentrequest)
  let w6 := w5.contextSet "Resource" (Value.str "EnrollmentRequest")
  let w7 := w6.contextSet "Action" (Value.str "update")
  let w8 := w7.HeaderSet "Content-Type" "application/json; charset=utf-8"
  let w9 := w8.HeaderSet "Access-Control-Allow-Origin" "*"
  w9.Encode env (Value.resource enrollmentrequest)

/-- The handler `EnrollmentRequestDeleteHandler`. -/
def EnrollmentRequestDeleteHandler (env : Env σ α) (r : Request) (w : World σ α) : World σ α :=
  let idString := r.id
  let checked : ObjectId × World σ α :=
    if h : IsObjectIdHex idString = true then (ObjectIdHex idString h, w)
    else ([], w.Error "Invalid id" 400)
  let id := checked.1
  let w1 := checked.2.call (Call.Remove id.Hex)
  let removed := env.c.Remove w1.db id.Hex
  let w2 : World σ α := { w1 with db := removed.1 }
  match removed.2 with
  | some err => w2.Error err 500
  | none =>
    let w3 := w2.contextSet "EnrollmentRequest" (Value.str id.Hex)
    let w4 := w3.contextSet "Resource" (Value.str "EnrollmentRequest")
    w4.contextSet "Action" (Value.str "delete")

/-! ## `server/operationoutcome.go` -/

/-- The handler `OperationOutcomeIndexHandler`. -/
def OperationOutcomeIndexHandler (env : Env σ α) (_r : Request) (w : World σ α) : World σ α :=
  let w1 := w.call (Call.FindLimitAll 100)
  let res := env.c.FindLimitAll w1.db 100
  let result := res.1
  let w2 :=
    match res.2 with
    | some err => w1.Error err 500
    | none => w1
  let bundle : LegacyBundle α :=
    { Type_ := "Bundle"
      Title := "OperationOutcome Index"
      Id := env.NewObjectId.Hex
      Updated := env.Now
      TotalResults := result.length
      Entries := result }
  let w3 := w2.HeaderSet "Content-Type" "application/json; charset=utf-8"
  let w4 := w3.HeaderSet "Access-Control-Allow-Origin" "*"
  w4.Encode env (Value.legacyBundle bundle)

/-- The handler `OperationOutcomeShowHandler`. -/
def OperationOutcomeShowHandler (env : Env σ α) (r : Request) (w : World σ α) : World σ α :=
  let idString := r.id
  let checked : ObjectId × World σ α :=
    if h : IsObjectIdHex idString = true then (ObjectIdHex idString h, w)
    else ([], w.Error "Invalid id" 400)
  let id := checked.1
  let w1 := checked.2.call (Call.FindOne id.Hex)
  match env.c.FindOne w1.db id.Hex with
  | Except.error err => w1.Error err 500
  | Except.ok result =>
    let w2 := w1.HeaderSet "Content-Type" "application/json; charset=utf-8"
    let w3 := w2.HeaderSet "Access-Control-Allow-Origin" "*"
    w3.Encode env (Value.resource result)

/-- The handler `OperationOutcomeCreateHandler`. -/
def OperationOutcomeCreateHandler (env : Env σ α) (r : Request) (w : World σ α) : World σ α :=
  let decoded := env.Decode r.Body
  let w1 :=
    match decoded.2 with
    | some err => w.Error err 500
    | none => w
  let i := env.NewObjectId
  let operationoutcome : Resource α := { decoded.1 with Id := i.Hex }
  let w2 := w1.call (Call.Insert operationoutcome)
  let inserted := env.c.Insert w2.db operationoutcome
  let w3 : World σ α := { w2 with db := inserted.1 }
  let w4 :=
    match inserted.2 with
    | some err => w3.Error err 500
    | none => w3
  let host := env.Hostname.1
  let w5 :=
    match env.Hostname.2 with
    | some err => w4.Error err 500
    | none => w4
  w5.HeaderAdd "Location" ("http://" ++ host ++ ":8080/OperationOutcome/" ++ i.Hex)

/-- The handler `OperationOutcomeUpdateHandler`. -/
def OperationOutcomeUpdateHandler (env : Env σ α) (r : Request) (w : World σ α) : World σ α :=
  let idString := r.id
  let checked : ObjectId × World σ α :=
    if h : IsObjectIdHex idString = true then (ObjectIdHex idString h, w)
    else ([], w.Error "Invalid id" 400)
  let id := checked.1
  let decoded := env.Decode r.Body
  let w1 :=
    match decoded.2 with
    | some err => checked.2.Error err 500
    | none => checked.2
  let operationoutcome : Resource α := { decoded.1 with Id := id.Hex }
  let w2 := w1.call (Call.Update id.Hex operationoutcome)
  let updated := env.c.Update w2.db id.Hex operationoutcome
  let w3 : World σ α := { w2 with db := updated.1 }
  match updated.2 with
  | some err => w3.Error err 500
  | none => w3

/-- The handler `OperationOutcomeDeleteHandler`. -/
def OperationOutcomeDeleteHandler (env : Env σ α) (r : Request) (w : World σ α) : World σ α :=
  let idString := r.id
  let checked : ObjectId × World σ α :=
    if h : IsObjectIdHex idString = true then (ObjectIdHex idString h, w)
    else ([], w.Error "Invalid id" 400)
  let id := checked.1
  let w1 := checked.2.call (Call.Remove id.Hex)
  let removed := env.c.Remove w1.db id.Hex
  let w2 : World σ α := { w1 with db := removed.1 }
  match removed.2 with
  | some err => w2.Error err 500
  | none => w2

/-! ## `server/relatedperson.go` -/

/-- The handler `RelatedPersonIndexHandler`. -/
def RelatedPersonIndexHandler (env : Env σ α) (_r : Request) (w : World σ α) : World σ α :=
  let w1 := w.call (Call.FindLimitAll 100)
  let res := env.c.FindLimitAll w1.db 100
  let result := res.1
  let w2 :=
    match res.2 with
    | some err => w1.Error err 500
    | none => w1
  let bundle : LegacyBundle α :=
    { Type_ := "Bundle"
      Title := "RelatedPerson Index"
      Id := env.NewObjectId.Hex
      Updated := env.Now
      TotalResults := result.length
      Entries := result }
  let w3 := w2.HeaderSet "Content-Type" "application/json; charset=utf-8"
  let w4 := w3.HeaderSet "Access-Control-Allow-Origin" "*"
  w4.Encode env (Value.legacyBundle bundle)

/-- The handler `RelatedPersonShowHandler`. -/
def RelatedPersonShowHandler (env : Env σ α) (r : Request) (w : World σ α) : World σ α :=
  let idString := r.id
  let checked : ObjectId × World σ α :=
    if h : IsObjectIdHex idString = true then (ObjectIdHex idString h, w)
    else ([], w.Error "Invalid id" 400)
  let id := checked.1
  let w1 := checked.2.call (Call.FindOne id.Hex)
  match env.c.FindOne w1.db id.Hex with
  | Except.error err => w1.Error err 500
  | Except.ok result =>
    let w2 := w1.HeaderSet "Content-Type" "application/json; charset=utf-8"
    let w3 := w2.HeaderSet "Access-Control-Allow-Origin" "*"
    w3.Encode env (Value.resource result)

/-- The handler `RelatedPersonCreateHandler`. -/
def RelatedPersonCreateHandler (env : Env σ α) (r : Request) (w : World σ α) : World σ α :=
  let decoded := env.Decode r.Body
  let w1 :=
    match decoded.2 with
    | some err => w.Error err 500
    | none => w
  let i := env.NewObjectId
  let relatedperson : Resource α := { decoded.1 with Id := i.Hex }
  let w2 := w1.call (Call.Insert relatedperson)
  let inserted := env.c.Insert w2.db relatedperson
  let w3 : World σ α := { w2 with db := inserted.1 }
  let w4 :=
    match inserted.2 with
    | some err => w3.Error err 500
    | none => w3
  let host := env.Hostname.1
  let w5 :=
    match env.Hostname.2 with
    | some err => w4.Error err 500
    | none => w4
  w5.HeaderAdd "Location" ("http://" ++ host ++ ":8080/RelatedPerson/" ++ i.Hex)

/-- The handler `RelatedPersonUpdateHandler`. -/
def RelatedPersonUpdateHandler (env : Env σ α) (r : Request) (w : World σ α) : World σ α :=
  let idString := r.id
  let checked : ObjectId × World σ α :=
    if h : IsObjectIdHex idString = true then (ObjectIdHex idString h, w)
    else ([], w.Error "Invalid id" 400)
  let id := checked.1
  let decoded := env.Decode r.Body
  let w1 :=
    match decoded.2 with
    | some err => checked.2.Error err 500
    | none => checked.2
  let relatedperson : Resource α := { decoded.1 with Id := id.Hex }
  let w2 := w1.call (Call.Update id.Hex relatedperson)
  let updated := env.c.Update w2.db id.Hex relatedperson
  let w3 : World σ α := { w2 with db := updated.1 }
  match updated.2 with
  | some err => w3.Error err 500
  | none => w3

/-- The handler `RelatedPersonDeleteHandler`. -/
def RelatedPersonDeleteHandler (env : Env σ α) (r : Request) (w : World σ α) : World σ α :=
  let idString := r.id
  let checked : ObjectId × World σ α :=
    if h : IsObjectIdHex idString = true then (ObjectIdHex idString h, w)
    else ([], w.Error "Invalid id" 400)
  let id := checked.1
  let w1 := checked.2.call (Call.Remove id.Hex)
  let removed := env.c.Remove w1.db id.Hex
  let w2 : World σ α := { w1 with db := removed.1 }
  match removed.2 with
  | some err => w2.Error err 500
  | none => w2

/-! ## A store in memory -/

/-- Modelled from the spec: the document store gateway (section 4.1) over a collection held as a
list of records in insertion order, each reached by its `Id`. `list(limit)` gives the first
`limit` records, `find`, `replace` and `remove` fail with "not found" where no record has the
id, `insert` fails where one has it already; there is no transport failure. -/
def memCollection : Collection (List (Resource α)) (Resource α) where
  FindLimitAll := fun s limit => (s.take limit, none)
  FindOne := fun s id =>
    match s.find? (fun x => x.Id == id) with
    | some x => Except.ok x
    | none => Except.error "not found"
  Insert := fun s doc =>
    if s.any (fun x => x.Id == doc.Id) then (s, some "duplicate key")
    else (s ++ [doc], none)
  Update := fun s key doc =>
    if s.any (fun x => x.Id == key) then
      (s.map (fun x => if x.Id == key then doc else x), none)
    else (s, some "not found")
  Remove := fun s key =>
    if s.any (fun x => x.Id == key) then (s.filter (fun x => x.Id != key), none)
    else (s, some "not found")

/-! ## Properties of a response and sample environments -/

/-- The response carries the JSON content type and the permissive CORS header. -/
def ResponseWriter.hasJsonHeaders (rw : ResponseWriter) : Prop :=
  rw.sent.Get "Content-Type" = "application/json; charset=utf-8" ∧
    rw.sent.Get "Access-Control-Allow-Origin" = "*"

instance (rw : ResponseWriter) : Decidable rw.hasJsonHeaders :=
  inferInstanceAs (Decidable
    (rw.sent.Get "Content-Type" = "application/json; charset=utf-8" ∧
      rw.sent.Get "Access-Control-Allow-Origin" = "*"))

/-- A JSON text for the sample environments: the kind of the value and, for a record, its
fields. -/
def sampleMarshal : Value String → String
  | Value.null => "null"
  | Value.str s => s
  | Value.resource x => x.Id ++ ":" ++ x.payload
  | Value.resources _ => "resources"
  | Value.bundle _ => "bundle"
  | Value.legacyBundle _ => "legacyBundle"
  | Value.outcome _ => "outcome"

/-- A sample environment over the store in memory, with a string as payload: nothing panics, the
search yields the records whose payload is the query, a form is empty exactly for the empty
query, the decoder takes the body as payload and fails on an empty body. -/
def sampleEnv : Env (List (Resource String)) String where
  c := memCollection
  CreateQueryAll := fun s q => (s.filter (fun x => x.payload == q.Query), none)
  raises := fun _ _ => none
  ParseForm := fun r => if r.RawQuery == "" then [] else [(r.RawQuery, [""])]
  Decode := fun body => ({ Id := "carried", payload := body }, if body == "" then some "EOF" else none)
  NewObjectId := [1, 2, 3, 4, 5, 6, 7, 8, 9, 10, 11, 255]
  Hostname := ("host", none)
  Now := 0
  Marshal := sampleMarshal

/-- The sample environment with a search compiler that panics: with a typed search error of
status 400 on the query `bad`, with another value on any other query. -/
def faultyEnv : Env (List (Resource String)) String :=
  { sampleEnv with
    raises := fun _ c =>
      match c with
      | Call.CreateQuery q =>
        if q.Query == "bad" then
          some (Recovered.searchError
            { HTTPStatus := 400
              OperationOutcome := { Issue := [{ Severity := "error", Code := "invalid" }] } })
        else some (Recovered.other "runtime error")
      | _ => none }

/-- A sequence of `2 ^ 32` records. -/
def hugeResult : List (Resource String) :=
  List.replicate (2 ^ 32) { Id := "", payload := "" }

/-- The sample environment with a search compiler that yields `2 ^ 32` records. -/
def hugeEnv : Env (List (Resource String)) String :=
  { sampleEnv with CreateQueryAll := fun _ _ => (hugeResult, none) }

/-- A valid identifier in upper case, its canonical form, and a sample record under it. -/
def sampleId : String := "0123456789ABCDEF01234567"

/-- The canonical form of `sampleId`. -/
def sampleHex : String := "0123456789abcdef01234567"

/-- A record stored under `sampleHex`. -/
def sampleRecord : Resource String := { Id := sampleHex, payload := "P" }

/-! ## Hexadecimal identifiers -/

theorem fromHexChar_hextable (n : Nat) (h : n < 16) :
    fromHexChar (hextable.getD n '0') = some n := by
  interval_cases n <;> decide

theorem utf8Size_hextable (n : Nat) (h : n < 16) :
    (hextable.getD n '0').utf8Size = 1 := by
  interval_cases n <;> decide

/-- Decoding the hexadecimal text of a sequence of bytes gives the bytes back. -/
theorem hexDecodeChars_hexEncodeChars (d : List Nat) (h : ∀ b ∈ d, b < 256) :
    hexDecodeChars (hexEncodeChars d) = some d := by
  induction d with
  | nil => rfl
  | cons v rest ih =>
    have hv : v < 256 := h v (List.mem_cons_self _ _)
    have h1 : v / 16 < 16 := by omega
    have h2 : v % 16 < 16 := by omega
    have hrest := ih (fun b hb => h b (List.mem_cons_of_mem _ hb))
    simp only [hexEncodeChars, hexDecodeChars, fromHexChar_hextable _ h1,
      fromHexChar_hextable _ h2, hrest]
    congr 2
    omega

theorem utf8ByteSize_hexEncodeToString (d : List Nat) (h : ∀ b ∈ d, b < 256) :
    (hexEncodeToString d).utf8ByteSize = 2 * d.length := by
  unfold hexEncodeToString
  induction d with
  | nil => rfl
  | cons v rest ih =>
    have hv : v < 256 := h v (List.mem_cons_self _ _)
    have h1 : v / 16 < 16 := by omega
    have h2 : v % 16 < 16 := by omega
    have hrest := ih (fun b hb => h b (List.mem_cons_of_mem _ hb))
    simp only [String.utf8ByteSize, hexEncodeChars, String.utf8ByteSize.go,
      utf8Size_hextable _ h1, utf8Size_hextable _ h2, List.length_cons] at hrest ⊢
    omega

/-- The hexadecimal form of a twelve-byte identifier passes `bson.IsObjectIdHex`. -/
theorem IsObjectIdHex_Hex (i : ObjectId) (hlen : i.length = 12) (h : ∀ b ∈ i, b < 256) :
    IsObjectIdHex i.Hex = true := by
  have hsize : (hexEncodeToString i).utf8ByteSize = 24 := by
    rw [utf8ByteSize_hexEncodeToString i h, hlen]
  have hdec : hexDecodeString (hexEncodeToString i) = some i :=
    hexDecodeChars_hexEncodeChars i h
  unfold IsObjectIdHex ObjectId.Hex
  rw [hsize, hdec]
  rfl

/-- Reading the hexadecimal form of an identifier back gives the identifier. -/
theorem ObjectIdHex_Hex (i : ObjectId) (h : ∀ b ∈ i, b < 256)
    (hv : IsObjectIdHex i.Hex = true) : ObjectIdHex i.Hex hv = i := by
  simp [ObjectIdHex, ObjectId.Hex, hexDecodeString, hexEncodeToString,
    hexDecodeChars_hexEncodeChars i h]

theorem char_le_iff_toNat (a b : Char) : a ≤ b ↔ a.toNat ≤ b.toNat := by
  rfl

theorem hextable_fromHexChar (c : Char) (a : Nat) (h : fromHexChar c = some a) :
    a < 16 ∧ hextable.getD a '0' = c.toLower := by
  have hc : Char.ofNat c.toNat = c := Char.ofNat_toNat c
  unfold fromHexChar at h
  simp only [char_le_iff_toNat] at h
  generalize c.toNat = n at h hc
  subst hc
  have e0 : '0'.toNat = 48 := rfl
  have e9 : '9'.toNat = 57 := rfl
  have ea : 'a'.toNat = 97 := rfl
  have ef : 'f'.toNat = 102 := rfl
  have eA : 'A'.toNat = 65 := rfl
  have eF : 'F'.toNat = 70 := rfl
  rw [e0, e9, ea, ef, eA, eF] at h
  split_ifs at h with h1 h2 h3
  · obtain ⟨h1a, h1b⟩ := h1
    injection h with h; subst h
    interval_cases n <;> decide
  · obtain ⟨h1a, h1b⟩ := h2
    injection h with h; subst h
    interval_cases n <;> decide
  · obtain ⟨h1a, h1b⟩ := h3
    injection h with h; subst h
    interval_cases n <;> decide

/-- The hexadecimal text of the bytes a text decodes to is that text in lower case. -/
theorem hexEncodeChars_hexDecodeChars (cs : List Char) :
    ∀ d, hexDecodeChars cs = some d → hexEncodeChars d = cs.map Char.toLower := by
  induction cs using hexDecodeChars.induct with
  | case1 => intro d h; simp [hexDecodeChars] at h; subst h; rfl
  | case2 c => intro d h; simp [hexDecodeChars] at h
  | case3 p q rest a b hb ha dr hr ih =>
    intro d h
    simp [hexDecodeChars, ha, hb, hr] at h
    subst h
    obtain ⟨ha1, ha2⟩ := hextable_fromHexChar p a ha
    obtain ⟨hb1, hb2⟩ := hextable_fromHexChar q b hb
    have e1 : (a * 16 + b) / 16 = a := by omega
    have e2 : (a * 16 + b) % 16 = b := by omega
    simp only [hexEncodeChars, e1, e2, ha2, hb2, ih dr hr, List.map_cons]
  | case4 p q rest a b ha hb hr => intro d h; simp [hexDecodeChars, ha, hb, hr] at h
  | case5 p q rest hno =>
    intro d h
    simp only [hexDecodeChars] at h
    cases h

/-- The canonical form `bson.ObjectIdHex(s).Hex()` of a valid identifier is the identifier in
lower case. -/
theorem ObjectIdHex_Hex_toList (s : String) (h : IsObjectIdHex s = true) :
    (ObjectIdHex s h).Hex.toList = s.toList.map Char.toLower := by
  have hsome : (hexDecodeString s).isSome = true := by
    unfold IsObjectIdHex at h
    split at h
    · cases h
    · exact h
  obtain ⟨d, hd⟩ := Option.isSome_iff_exists.mp hsome
  have hx : ObjectIdHex s h = d := by simp [ObjectIdHex, hd]
  rw [hx]
  exact hexEncodeChars_hexDecodeChars s.toList d hd

/-! ## The store in memory and the bundles of the index handlers -/

/-- Removing an id that no record has fails. -/
theorem memCollection_Remove_absent (s : List (Resource α)) (key : String)
    (h : ∀ x ∈ s, x.Id ≠ key) : (memCollection.Remove s key).2 = some "not found" := by
  have hne : ¬ ∃ x ∈ s, x.Id = key := fun ⟨x, hx, e⟩ => h x hx e
  simp [memCollection, hne]

/-- An insert that succeeds appends the record, and a find by its id gives it back. -/
theorem memCollection_Insert_FindOne (db : List (Resource α)) (doc : Resource α)
    (hi : (memCollection.Insert db doc).2 = none) :
    (memCollection.Insert db doc).1 = db ++ [doc] ∧
    memCollection.FindOne (db ++ [doc]) doc.Id = Except.ok doc := by
  by_cases hany : ∃ x ∈ db, x.Id = doc.Id
  · simp [memCollection, hany] at hi
  · have hnone : db.find? (fun x => x.Id == doc.Id) = none := by
      rw [List.find?_eq_none]
      intro x hx hxe
      exact hany ⟨x, hx, by simpa using hxe⟩
    simp [memCollection, hany, List.find?_append, hnone]

/-- The bundle the EnrollmentRequest index handler encodes where no call panics. -/
theorem EnrollmentRequestIndexHandler_encoded (env : Env σ α) (r : Request) (db : σ)
    (hr : ∀ c, env.raises db c = none) (yielded : List (Resource α))
    (hy : yielded =
      if (env.ParseForm r).length = 0 then (env.c.FindLimitAll db 100).1
      else (env.CreateQueryAll db { Resource := "EnrollmentRequest", Query := r.RawQuery }).1) :
    (EnrollmentRequestIndexHandler env r (World.init db)).encoded =
      [Value.bundle
        { Id := env.NewObjectId.Hex, Type_ := "searchset"
          Total := yielded.length % 2 ^ 32
          Entry := yielded.map (fun x => { Resource := x }) }] := by
  simp only [EnrollmentRequestIndexHandler, EnrollmentRequestIndexBody, World.init,
    World.call, hr]
  by_cases hform : (env.ParseForm r).length = 0
  · simp only [hform, if_true] at hy ⊢
    cases (env.c.FindLimitAll db 100).2 <;>
      simp [World.Encode, World.HeaderSet, World.contextSet, World.Error, hy]
  · simp only [hform, if_false] at hy ⊢
    cases (env.CreateQueryAll db
      { Resource := "EnrollmentRequest", Query := r.RawQuery }).2 <;>
      simp [World.Encode, World.HeaderSet, World.contextSet, World.Error, hy]

/-- The bundle the OperationOutcome index handler encodes. -/
theorem OperationOutcomeIndexHandler_encoded (env : Env σ α) (r : Request) (db : σ) :
    (OperationOutcomeIndexHandler env r (World.init db)).encoded =
      [Value.legacyBundle
        { Type_ := "Bundle", Title := "OperationOutcome Index", Id := env.NewObjectId.Hex
          Updated := env.Now, TotalResults := (env.c.FindLimitAll db 100).1.length
          Entries := (env.c.FindLimitAll db 100).1 }] := by
  simp only [OperationOutcomeIndexHandler, World.init, World.call]
  cases (env.c.FindLimitAll db 100).2 <;> simp [World.Encode, World.HeaderSet, World.Error]

/-- The bundle the RelatedPerson index handler encodes. -/
theorem RelatedPersonIndexHandler_encoded (env : Env σ α) (r : Request) (db : σ) :
    (RelatedPersonIndexHandler env r (World.init db)).encoded =
      [Value.legacyBundle
        { Type_ := "Bundle", Title := "RelatedPerson Index", Id := env.NewObjectId.Hex
          Updated := env.Now, TotalResults := (env.c.FindLimitAll db 100).1.length
          Entries := (env.c.FindLimitAll db 100).1 }] := by
  simp only [RelatedPersonIndexHandler, World.init, World.call]
  cases (env.c.FindLimitAll db 100).2 <;> simp [World.Encode, World.HeaderSet, World.Error]

theorem hugeResult_length : hugeResult.length = 2 ^ 32 :=
  List.length_replicate _ _

theorem hugeResult_wraps : hugeResult.length % 2 ^ 32 = 0 := by
  simp only [hugeResult_length, Nat.mod_self]

theorem hugeEnv_yields :
    hugeResult =
      if (hugeEnv.ParseForm { id := "", RawQuery := "q", Body := "" }).length = 0 then
        (hugeEnv.c.FindLimitAll [] 100).1
      else (hugeEnv.CreateQueryAll [] { Resource := "EnrollmentRequest", Query := "q" }).1 := by
  have hform : (hugeEnv.ParseForm { id := "", RawQuery := "q", Body := "" }).length ≠ 0 := by
    decide
  rw [if_neg hform]
  rfl

/-- A create answered with 201 wrote no error: the body decoded, the insert succeeded and the
host name was found. -/
theorem EnrollmentRequestCreateHandler_created (env : Env σ α) (r : Request) (db : σ)
    (hs : (EnrollmentRequestCreateHandler env r (World.init db)).response.status = 201) :
    (env.Decode r.Body).2 = none ∧
    (env.c.Insert db
      { Id := env.NewObjectId.Hex, payload := (env.Decode r.Body).1.payload }).2 = none ∧
    env.Hostname.2 = none := by
  cases hd : (env.Decode r.Body).2 <;>
  cases hi : (env.c.Insert db
      { Id := env.NewObjectId.Hex, payload := (env.Decode r.Body).1.payload }).2 <;>
  cases hh : env.Hostname.2 <;>
  simp [EnrollmentRequestCreateHandler, World.init, World.call, World.Error, World.contextSet,
    World.HeaderSet, World.HeaderAdd, World.WriteHeader, World.Encode, World.response,
    ResponseWriter.finish, ResponseWriter.Error, ResponseWriter.Write,
    ResponseWriter.WriteHeader, ResponseWriter.fresh, hd, hi, hh] at hs ⊢

theorem empty_ne_star : ¬ ("" : String) = "*" := by decide

/-! ## The claims -/

/-- C1: for a path id that passes identifier validation and a body that decodes, whatever id
the body carries, each of the three update handlers hands the store's replace one record whose
id is the canonical hex form of the path id (the path id in lower case), under that same value
as key; the EnrollmentRequest handler encodes that record in the response. -/
theorem update_record_carries_path_id (env : Env σ α) (r : Request) (db : σ)
    (h : IsObjectIdHex r.id = true) (hd : (env.Decode r.Body).2 = none) :
    let hex := (ObjectIdHex r.id h).Hex
    let doc : Resource α := { Id := hex, payload := (env.Decode r.Body).1.payload }
    hex.toList = r.id.toList.map Char.toLower ∧
    (EnrollmentRequestUpdateHandler env r (World.init db)).calls = [Call.Update hex doc] ∧
    (EnrollmentRequestUpdateHandler env r (World.init db)).encoded = [Value.resource doc] ∧
    (OperationOutcomeUpdateHandler env r (World.init db)).calls = [Call.Update hex doc] ∧
    (RelatedPersonUpdateHandler env r (World.init db)).calls = [Call.Update hex doc] := by
  intro hex doc
  refine ⟨ObjectIdHex_Hex_toList r.id h, ?_, ?_, ?_, ?_⟩ <;>
    simp only [EnrollmentRequestUpdateHandler, OperationOutcomeUpdateHandler,
      RelatedPersonUpdateHandler, World.init, World.call, World.Error, World.contextSet,
      World.HeaderSet, World.Encode, h, hd, dite_true] <;>
    split <;> simp [hex, doc]

/-- C1, at a path id in upper case and a body that carries another id: the record replaced and
the record encoded have the path id in lower case. -/
theorem update_record_carries_path_id_witness :
    IsObjectIdHex sampleId = true ∧ (sampleEnv.Decode "P").2 = none ∧
    (sampleEnv.Decode "P").1.Id = "carried" ∧
    (EnrollmentRequestUpdateHandler sampleEnv
        { id := sampleId, RawQuery := "", Body := "P" } (World.init [sampleRecord])).calls =
      [Call.Update sampleHex { Id := sampleHex, payload := "P" }] ∧
    (EnrollmentRequestUpdateHandler sampleEnv
        { id := sampleId, RawQuery := "", Body := "P" } (World.init [sampleRecord])).encoded =
      [Value.resource { Id := sampleHex, payload := "P" }] :=
  ⟨by decide, by decide, by decide,
    (update_record_carries_path_id sampleEnv { id := sampleId, RawQuery := "", Body := "P" }
      [sampleRecord] (by decide) (by decide)).2.1,
    (update_record_carries_path_id sampleEnv { id := sampleId, RawQuery := "", Body := "P" }
      [sampleRecord] (by decide) (by decide)).2.2.1⟩

/-- C9: the EnrollmentRequest index handler makes exactly one call to its collaborators: the
list limited to 100 where the parsed form is empty, and otherwise the search compiler with the
resource tag "EnrollmentRequest" and the raw query string of the request as it came. -/
theorem index_dispatch (env : Env σ α) (r : Request) (db : σ) :
    (EnrollmentRequestIndexHandler env r (World.init db)).calls =
      if (env.ParseForm r).length = 0 then [Call.FindLimitAll 100]
      else [Call.CreateQuery { Resource := "EnrollmentRequest", Query := r.RawQuery }] := by
  unfold EnrollmentRequestIndexHandler EnrollmentRequestIndexBody EnrollmentRequestIndexRecover
  simp only [World.init, World.call, World.Error, World.contextSet, World.HeaderSet,
    World.Encode, World.WriteHeader]
  split_ifs with h
  · cases h1 : env.raises db (Call.FindLimitAll 100) with
    | some x => cases x <;> simp
    | none => cases h2 : (env.c.FindLimitAll db 100).2 <;> simp
  · cases h1 : env.raises db
        (Call.CreateQuery { Resource := "EnrollmentRequest", Query := r.RawQuery }) with
    | some x => cases x <;> simp
    | none =>
      cases h2 : (env.CreateQueryAll db
        { Resource := "EnrollmentRequest", Query := r.RawQuery }).2 <;> simp

/-- C10: whatever the request, each create handler makes exactly one insert and each update
handler exactly one replace. The record written is the one the decoder left, failed or not,
under the assigned id; the update's key and the record's id are the canonical form of a valid
path id, and both the empty string for an invalid one. -/
theorem writes_made_despite_errors (env : Env σ α) (r : Request) (db : σ) :
    let fresh : Resource α :=
      { Id := env.NewObjectId.Hex, payload := (env.Decode r.Body).1.payload }
    ((EnrollmentRequestCreateHandler env r (World.init db)).calls = [Call.Insert fresh] ∧
      (OperationOutcomeCreateHandler env r (World.init db)).calls = [Call.Insert fresh] ∧
      (RelatedPersonCreateHandler env r (World.init db)).calls = [Call.Insert fresh]) ∧
    (∀ h : IsObjectIdHex r.id = true,
      let doc : Resource α :=
        { Id := (ObjectIdHex r.id h).Hex, payload := (env.Decode r.Body).1.payload }
      (EnrollmentRequestUpdateHandler env r (World.init db)).calls =
          [Call.Update (ObjectIdHex r.id h).Hex doc] ∧
        (OperationOutcomeUpdateHandler env r (World.init db)).calls =
          [Call.Update (ObjectIdHex r.id h).Hex doc] ∧
        (RelatedPersonUpdateHandler env r (World.init db)).calls =
          [Call.Update (ObjectIdHex r.id h).Hex doc]) ∧
    (IsObjectIdHex r.id = false →
      let doc : Resource α := { Id := "", payload := (env.Decode r.Body).1.payload }
      (EnrollmentRequestUpdateHandler env r (World.init db)).calls = [Call.Update "" doc] ∧
        (OperationOutcomeUpdateHandler env r (World.init db)).calls = [Call.Update "" doc] ∧
        (RelatedPersonUpdateHandler env r (World.init db)).calls = [Call.Update "" doc]) := by
  intro fresh
  refine ⟨⟨?_, ?_, ?_⟩, fun h => ⟨?_, ?_, ?_⟩, fun h => ⟨?_, ?_, ?_⟩⟩
  · cases hd : (env.Decode r.Body).2 <;>
      simp only [EnrollmentRequestCreateHandler, World.init, World.call, World.Error,
        World.contextSet, World.HeaderSet, World.HeaderAdd, World.WriteHeader, World.Encode,
        hd] <;>
      (repeat' split) <;> simp [fresh]
  · cases hd : (env.Decode r.Body).2 <;>
      simp only [OperationOutcomeCreateHandler, World.init, World.call, World.Error,
        World.HeaderAdd, hd] <;>
      (repeat' split) <;> simp [fresh]
  · cases hd : (env.Decode r.Body).2 <;>
      simp only [RelatedPersonCreateHandler, World.init, World.call, World.Error,
        World.HeaderAdd, hd] <;>
      (repeat' split) <;> simp [fresh]
  all_goals
    cases hd : (env.Decode r.Body).2 <;>
    simp only [EnrollmentRequestUpdateHandler, OperationOutcomeUpdateHandler,
      RelatedPersonUpdateHandler, World.init, World.call, World.Error, World.contextSet,
      World.HeaderSet, World.Encode, h, hd, dite_true, Bool.false_eq_true, dite_false] <;>
    split <;> simp [ObjectId.Hex, hexEncodeToString, hexEncodeChars]

/-- C10, at a body that fails to decode sent to an invalid path id: the insert and the replace
are made all the same, the replace under the empty key. -/
theorem writes_made_despite_errors_witness :
    IsObjectIdHex "notahex" = false ∧ (sampleEnv.Decode "").2 = some "EOF" ∧
    (EnrollmentRequestCreateHandler sampleEnv
        { id := "", RawQuery := "", Body := "" } (World.init [])).calls =
      [Call.Insert { Id := "0102030405060708090a0bff", payload := "" }] ∧
    (EnrollmentRequestUpdateHandler sampleEnv
        { id := "notahex", RawQuery := "", Body := "" } (World.init [])).calls =
      [Call.Update "" { Id := "", payload := "" }] :=
  ⟨by decide, by decide,
    (writes_made_despite_errors sampleEnv { id := "", RawQuery := "", Body := "" } []).1.1,
    ((writes_made_despite_errors sampleEnv { id := "notahex", RawQuery := "", Body := "" }
      []).2.2 (by decide)).1⟩

/-- C2: for a path id that fails identifier validation, the update and delete handlers of the
three kinds and the show handlers of OperationOutcome and RelatedPerson answer with status 400
and a body that begins with "Invalid id"; the EnrollmentRequest show handler answers with status
500, its body being "Invalid id" and the encoding of the absent context value. -/
theorem invalid_id_responses (env : Env σ α) (r : Request) (db : σ)
    (h : IsObjectIdHex r.id = false) :
    ((EnrollmentRequestShowHandler env r (World.init db)).response.status = 500 ∧
      (EnrollmentRequestShowHandler env r (World.init db)).response.body =
        "Invalid id\n" ++ (env.Marshal Value.null ++ "\n")) ∧
    ((OperationOutcomeShowHandler env r (World.init db)).response.status = 400 ∧
      ∃ rest, (OperationOutcomeShowHandler env r (World.init db)).response.body =
        "Invalid id\n" ++ rest) ∧
    ((RelatedPersonShowHandler env r (World.init db)).response.status = 400 ∧
      ∃ rest, (RelatedPersonShowHandler env r (World.init db)).response.body =
        "Invalid id\n" ++ rest) ∧
    ((EnrollmentRequestUpdateHandler env r (World.init db)).response.status = 400 ∧
      ∃ rest, (EnrollmentRequestUpdateHandler env r (World.init db)).response.body =
        "Invalid id\n" ++ rest) ∧
    ((OperationOutcomeUpdateHandler env r (World.init db)).response.status = 400 ∧
      ∃ rest, (OperationOutcomeUpdateHandler env r (World.init db)).response.body =
        "Invalid id\n" ++ rest) ∧
    ((RelatedPersonUpdateHandler env r (World.init db)).response.status = 400 ∧
      ∃ rest, (RelatedPersonUpdateHandler env r (World.init db)).response.body =
        "Invalid id\n" ++ rest) ∧
    ((EnrollmentRequestDeleteHandler env r (World.init db)).response.status = 400 ∧
      ∃ rest, (EnrollmentRequestDeleteHandler env r (World.init db)).response.body =
        "Invalid id\n" ++ rest) ∧
    ((OperationOutcomeDeleteHandler env r (World.init db)).response.status = 400 ∧
      ∃ rest, (OperationOutcomeDeleteHandler env r (World.init db)).response.body =
        "Invalid id\n" ++ rest) ∧
    ((RelatedPersonDeleteHandler env r (World.init db)).response.status = 400 ∧
      ∃ rest, (RelatedPersonDeleteHandler env r (World.init db)).response.body =
        "Invalid id\n" ++ rest) := by
  refine ⟨?_, ?_, ?_, ?_, ?_, ?_, ?_, ?_, ?_⟩
  · simp [EnrollmentRequestShowHandler, LoadEnrollmentRequest, World.init, World.call,
      World.Error, World.contextSet, World.contextGet, World.HeaderSet, World.Encode, h,
      World.response, ResponseWriter.finish, ResponseWriter.Error, ResponseWriter.Write,
      ResponseWriter.WriteHeader, ResponseWriter.fresh, List.lookup,
      (by decide : ("EnrollmentRequest" == "Action") = false)]
  all_goals
    cases hd : (env.Decode r.Body).2 <;>
    simp only [OperationOutcomeShowHandler, RelatedPersonShowHandler,
      EnrollmentRequestUpdateHandler, OperationOutcomeUpdateHandler, RelatedPersonUpdateHandler,
      EnrollmentRequestDeleteHandler, OperationOutcomeDeleteHandler, RelatedPersonDeleteHandler,
      World.init, World.call, World.Error, World.contextSet, World.HeaderSet, World.Encode,
      h, hd, Bool.false_eq_true, dite_false] <;>
    split <;>
    simp [World.response, ResponseWriter.finish, ResponseWriter.Error, ResponseWriter.Write,
      ResponseWriter.WriteHeader, ResponseWriter.fresh, String.append_assoc] <;>
    exact ⟨"", (String.append_empty _).symm⟩

/-- C2, at `GET /EnrollmentRequest/notahex` beside `GET /OperationOutcome/notahex`: the first
is answered with 500, the second with 400. -/
theorem invalid_id_responses_witness :
    IsObjectIdHex "notahex" = false ∧
    (EnrollmentRequestShowHandler sampleEnv
        { id := "notahex", RawQuery := "", Body := "" } (World.init [])).response.status = 500 ∧
    (EnrollmentRequestShowHandler sampleEnv
        { id := "notahex", RawQuery := "", Body := "" } (World.init [])).response.body =
      "Invalid id\nnull\n" ∧
    (OperationOutcomeShowHandler sampleEnv
        { id := "notahex", RawQuery := "", Body := "" } (World.init [])).response.status = 400 :=
  ⟨by decide,
    (invalid_id_responses sampleEnv { id := "notahex", RawQuery := "", Body := "" } []
      (by decide)).1.1,
    (invalid_id_responses sampleEnv { id := "notahex", RawQuery := "", Body := "" } []
      (by decide)).1.2,
    (invalid_id_responses sampleEnv { id := "notahex", RawQuery := "", Body := "" } []
      (by decide)).2.1.1⟩

/-- C3, as amended: where the calls return, each index handler encodes one bundle whose entries
are the yielded records in their order, after a store error too. The `totalResults` of
OperationOutcome and RelatedPerson is the number of entries; the `total` of EnrollmentRequest is
that number modulo `2 ^ 32`, hence the number itself for fewer than `2 ^ 32` records. -/
theorem index_bundle_counts (env : Env σ α) (r : Request) (db : σ)
    (hr : ∀ c, env.raises db c = none) :
    let yielded :=
      if (env.ParseForm r).length = 0 then (env.c.FindLimitAll db 100).1
      else (env.CreateQueryAll db { Resource := "EnrollmentRequest", Query := r.RawQuery }).1
    let listed := (env.c.FindLimitAll db 100).1
    (∃ b : Bundle α,
      (EnrollmentRequestIndexHandler env r (World.init db)).encoded = [Value.bundle b] ∧
      b.Entry.map (fun e => e.Resource) = yielded ∧
      b.Total = b.Entry.length % 2 ^ 32 ∧
      (yielded.length < 2 ^ 32 → b.Total = b.Entry.length)) ∧
    (∃ b : LegacyBundle α,
      (OperationOutcomeIndexHandler env r (World.init db)).encoded = [Value.legacyBundle b] ∧
      b.Entries = listed ∧ b.TotalResults = b.Entries.length) ∧
    (∃ b : LegacyBundle α,
      (RelatedPersonIndexHandler env r (World.init db)).encoded = [Value.legacyBundle b] ∧
      b.Entries = listed ∧ b.TotalResults = b.Entries.length) := by
  intro yielded listed
  refine ⟨⟨_, EnrollmentRequestIndexHandler_encoded env r db hr yielded rfl, ?_, ?_, ?_⟩,
    ⟨_, OperationOutcomeIndexHandler_encoded env r db, rfl, rfl⟩,
    ⟨_, RelatedPersonIndexHandler_encoded env r db, rfl, rfl⟩⟩
  · simp [List.map_map, Function.comp_def]
  · simp
  · intro hlt
    simp only [List.length_map]
    exact Nat.mod_eq_of_lt hlt

/-- C3, at a store of one record listed without query: the bundle counts its entry. -/
theorem index_bundle_counts_witness :
    (∀ c, sampleEnv.raises [sampleRecord] c = none) ∧
    ∃ b : Bundle String,
      (EnrollmentRequestIndexHandler sampleEnv { id := "", RawQuery := "", Body := "" }
        (World.init [sampleRecord])).encoded = [Value.bundle b] ∧
      b.Entry.map (fun e => e.Resource) = [sampleRecord] ∧ b.Total = b.Entry.length := by
  refine ⟨fun _ => rfl, ?_⟩
  obtain ⟨b, h1, h2, _, h4⟩ :=
    (index_bundle_counts sampleEnv { id := "", RawQuery := "", Body := "" } [sampleRecord]
      (fun _ => rfl)).1
  exact ⟨b, h1, h2, h4 (by decide)⟩

/-- C3, the claim as stated fails: a search that yields `2 ^ 32` records gives a bundle of
`2 ^ 32` entries whose `total` is 0. -/
theorem index_total_wraps :
    (EnrollmentRequestIndexHandler hugeEnv { id := "", RawQuery := "q", Body := "" }
        (World.init [])).encoded =
      [Value.bundle
        { Id := hugeEnv.NewObjectId.Hex, Type_ := "searchset"
          Total := 0
          Entry := hugeResult.map (fun x => { Resource := x }) }] ∧
    (hugeResult.map (fun x => ({ Resource := x } : BundleEntryComponent String))).length =
      2 ^ 32 := by
  constructor
  · rw [EnrollmentRequestIndexHandler_encoded hugeEnv { id := "", RawQuery := "q", Body := "" }
      [] (fun _ => rfl) hugeResult hugeEnv_yields, hugeResult_wraps]
  · simp only [List.length_map, hugeResult_length]

/-- C4: over the store in memory holding `n` records, an index request without query parameters
gets, for each of the three kinds, a bundle of exactly `min n 100` entries, hence of exactly 100
where at least 101 records are stored. -/
theorem unfiltered_index_cap (env : Env (List (Resource α)) α) (r : Request)
    (db : List (Resource α)) (hc : env.c = memCollection)
    (hr : ∀ c, env.raises db c = none) (hq : env.ParseForm r = []) :
    (∃ b : Bundle α,
      (EnrollmentRequestIndexHandler env r (World.init db)).encoded = [Value.bundle b] ∧
      b.Entry.length = min db.length 100 ∧ (101 ≤ db.length → b.Entry.length = 100)) ∧
    (∃ b : LegacyBundle α,
      (OperationOutcomeIndexHandler env r (World.init db)).encoded = [Value.legacyBundle b] ∧
      b.Entries.length = min db.length 100 ∧ (101 ≤ db.length → b.Entries.length = 100)) ∧
    (∃ b : LegacyBundle α,
      (RelatedPersonIndexHandler env r (World.init db)).encoded = [Value.legacyBundle b] ∧
      b.Entries.length = min db.length 100 ∧ (101 ≤ db.length → b.Entries.length = 100)) := by
  have hlist : env.c.FindLimitAll db 100 = (db.take 100, none) := by
    rw [hc]; rfl
  have hmin : (db.take 100).length = min db.length 100 := by
    rw [List.length_take]; exact Nat.min_comm _ _
  have hcap : 101 ≤ db.length → (db.take 100).length = 100 := by
    intro h; rw [hmin]; omega
  have hy : db.take 100 =
      if (env.ParseForm r).length = 0 then (env.c.FindLimitAll db 100).1
      else (env.CreateQueryAll db
        { Resource := "EnrollmentRequest", Query := r.RawQuery }).1 := by
    simp [hq, hlist]
  refine ⟨⟨_, EnrollmentRequestIndexHandler_encoded env r db hr (db.take 100) hy, ?_, ?_⟩,
    ⟨_, OperationOutcomeIndexHandler_encoded env r db, ?_, ?_⟩,
    ⟨_, RelatedPersonIndexHandler_encoded env r db, ?_, ?_⟩⟩
  · simp only [List.length_map]; exact hmin
  · intro h; simp only [List.length_map]; exact hcap h
  all_goals simp only [hlist]
  · exact hmin
  · exact hcap
  · exact hmin
  · exact hcap

/-- C4, at a store of 101 records: the EnrollmentRequest bundle has exactly 100 entries. -/
theorem unfiltered_index_cap_witness :
    sampleEnv.c = memCollection ∧
    (∀ c, sampleEnv.raises (List.replicate 101 sampleRecord) c = none) ∧
    sampleEnv.ParseForm { id := "", RawQuery := "", Body := "" } = [] ∧
    ∃ b : Bundle String,
      (EnrollmentRequestIndexHandler sampleEnv { id := "", RawQuery := "", Body := "" }
        (World.init (List.replicate 101 sampleRecord))).encoded = [Value.bundle b] ∧
      b.Entry.length = 100 := by
  refine ⟨rfl, fun _ => rfl, rfl, ?_⟩
  obtain ⟨b, h1, _, h3⟩ :=
    (unfiltered_index_cap sampleEnv { id := "", RawQuery := "", Body := "" }
      (List.replicate 101 sampleRecord) rfl (fun _ => rfl) rfl).1
  exact ⟨b, h1, h3 (by simp)⟩

/-- C5: over the store in memory, an EnrollmentRequest create answered with 201 Created, then
a show of the identifier it generated: the show returns the decoded payload under that
identifier, which ends the Location header of the create and is the id of the record inserted
and of the record in the create's response body. -/
theorem create_then_show (env : Env (List (Resource α)) α) (r g : Request)
    (db : List (Resource α)) (hc : env.c = memCollection)
    (hlen : env.NewObjectId.length = 12) (hbytes : ∀ b ∈ env.NewObjectId, b < 256)
    (hs : (EnrollmentRequestCreateHandler env r (World.init db)).response.status = 201)
    (hg : g.id = env.NewObjectId.Hex) :
    let id := env.NewObjectId.Hex
    let stored : Resource α := { Id := id, payload := (env.Decode r.Body).1.payload }
    let created := EnrollmentRequestCreateHandler env r (World.init db)
    let shown := EnrollmentRequestShowHandler env g (World.init created.db)
    created.response.sent.Get "Location" =
        "http://" ++ env.Hostname.1 ++ ":3001/EnrollmentRequest/" ++ id ∧
      created.calls = [Call.Insert stored] ∧
      created.encoded = [Value.resource stored] ∧
      created.response.body = env.Marshal (Value.resource stored) ++ "\n" ∧
      shown.calls = [Call.FindOne id] ∧
      shown.response.status = 200 ∧
      shown.encoded = [Value.resource stored] ∧
      shown.response.body = env.Marshal (Value.resource stored) ++ "\n" := by
  intro id stored created shown
  obtain ⟨hd, hi, hh⟩ := EnrollmentRequestCreateHandler_created env r db hs
  rw [hc] at hi
  obtain ⟨hdb, hfind⟩ := memCollection_Insert_FindOne db stored hi
  have hcreated : created =
      { rw := (((ResponseWriter.fresh.header.Add "Location"
                  ("http://" ++ env.Hostname.1 ++ ":3001/EnrollmentRequest/" ++ id)).Set
                  "Content-Type" "application/json; charset=utf-8").Set
                  "Access-Control-Allow-Origin" "*" |> fun h =>
                ({ ResponseWriter.fresh with header := h }.WriteHeader 201).Write
                  (env.Marshal (Value.resource stored) ++ "\n"))
        ctx := [("Action", Value.str "create"), ("Resource", Value.str "EnrollmentRequest"),
          ("EnrollmentRequest", Value.resource stored)]
        db := db ++ [stored]
        calls := [Call.Insert stored]
        encoded := [Value.resource stored] } := by
    have hi2 : (env.c.Insert db stored).2 = none := by rw [hc]; exact hi
    have hdb2 : (env.c.Insert db stored).1 = db ++ [stored] := by rw [hc]; exact hdb
    simp [created, EnrollmentRequestCreateHandler, World.init, World.call, World.Error,
      World.contextSet, World.HeaderSet, World.HeaderAdd, World.WriteHeader, World.Encode,
      hd, hh, hi2, hdb2, stored, id, ResponseWriter.fresh]
  have hvalid : IsObjectIdHex g.id = true := by
    rw [hg]; exact IsObjectIdHex_Hex _ hlen hbytes
  have hkey : (ObjectIdHex g.id hvalid).Hex = id := by
    have : ∀ (s : String) (hv : IsObjectIdHex s = true), s = env.NewObjectId.Hex →
        (ObjectIdHex s hv).Hex = env.NewObjectId.Hex := by
      intro s hv hse
      subst hse
      rw [ObjectIdHex_Hex _ hbytes]
    exact this g.id hvalid hg
  have hfind2 : env.c.FindOne (db ++ [stored]) id = Except.ok stored := by
    rw [hc]; exact hfind
  have hshown : shown.calls = [Call.FindOne id] ∧ shown.encoded = [Value.resource stored] ∧
      shown.response.status = 200 ∧
      shown.response.body = env.Marshal (Value.resource stored) ++ "\n" := by
    simp [shown, hcreated, EnrollmentRequestShowHandler, LoadEnrollmentRequest, World.init,
      World.call, World.Error, World.contextSet, World.contextGet, World.HeaderSet,
      World.Encode, hvalid, hkey, hfind2, World.response, ResponseWriter.finish,
      ResponseWriter.Write, ResponseWriter.WriteHeader, ResponseWriter.fresh, List.lookup,
      (by decide : ("EnrollmentRequest" == "Resource") = false),
      (by decide : ("EnrollmentRequest" == "Action") = false)]
  refine ⟨?_, ?_, ?_, ?_, hshown.1, hshown.2.2.1, hshown.2.1, hshown.2.2.2⟩ <;>
    rw [hcreated] <;>
    simp [World.response, ResponseWriter.finish, ResponseWriter.Write,
      ResponseWriter.WriteHeader, ResponseWriter.fresh, Header.Get, Header.Set, Header.Add,
      List.lookup,
      (by decide : ("Location" == "Access-Control-Allow-Origin") = false),
      (by decide : ("Location" == "Content-Type") = false),
      (by decide : ("Content-Type" == "Access-Control-Allow-Origin") = false)]

/-- C5, at the payload "P" created in an empty store: the show returns "P" under the generated
identifier, the one at the end of the Location header. -/
theorem create_then_show_witness :
    sampleEnv.c = memCollection ∧ sampleEnv.NewObjectId.length = 12 ∧
    (∀ b ∈ sampleEnv.NewObjectId, b < 256) ∧
    (EnrollmentRequestCreateHandler sampleEnv { id := "", RawQuery := "", Body := "P" }
      (World.init [])).response.status = 201 ∧
    (EnrollmentRequestCreateHandler sampleEnv { id := "", RawQuery := "", Body := "P" }
      (World.init [])).response.sent.Get "Location" =
        "http://host:3001/EnrollmentRequest/0102030405060708090a0bff" ∧
    (EnrollmentRequestShowHandler sampleEnv
      { id := "0102030405060708090a0bff", RawQuery := "", Body := "" }
      (World.init (EnrollmentRequestCreateHandler sampleEnv
        { id := "", RawQuery := "", Body := "P" } (World.init [])).db)).encoded =
        [Value.resource { Id := "0102030405060708090a0bff", payload := "P" }] :=
  ⟨rfl, by decide, by decide, by decide,
    (create_then_show sampleEnv { id := "", RawQuery := "", Body := "P" }
      { id := "0102030405060708090a0bff", RawQuery := "", Body := "" } [] rfl (by decide)
      (by decide) (by decide) (by decide)).1,
    (create_then_show sampleEnv { id := "", RawQuery := "", Body := "P" }
      { id := "0102030405060708090a0bff", RawQuery := "", Body := "" } [] rfl (by decide)
      (by decide) (by decide) (by decide)).2.2.2.2.2.2.1⟩

/-- C6: where the EnrollmentRequest index handler is ended by a panic of the store's list call
or of the search compiler, the response has, for a typed search error, the status the error
carries and as body the JSON of its OperationOutcome, and for any other recovered value status
500 and as body the JSON of an OperationOutcome with the single issue of severity "fatal" and
code "exception". -/
theorem index_recovery (env : Env σ α) (r : Request) (db : σ) (x : Recovered)
    (w1 : World σ α)
    (hf : EnrollmentRequestIndexBody env r (World.init db) = Except.error (x, w1)) :
    let resp := (EnrollmentRequestIndexHandler env r (World.init db)).response
    match x with
    | Recovered.searchError e =>
      resp.status = e.HTTPStatus ∧
        resp.body = env.Marshal (Value.outcome e.OperationOutcome) ++ "\n"
    | Recovered.other _ =>
      resp.status = 500 ∧
        resp.body = env.Marshal (Value.outcome
          { Issue := [{ Severity := "fatal", Code := "exception" }] }) ++ "\n" := by
  intro resp
  have hw : w1.rw = ResponseWriter.fresh := by
    unfold EnrollmentRequestIndexBody at hf
    simp only [World.init, World.call, World.Error] at hf
    split_ifs at hf with hform
    · cases h1 : env.raises db (Call.FindLimitAll 100) with
      | some y =>
        simp only [h1] at hf
        injection hf with hf
        injection hf with _ hf
        rw [← hf]
      | none =>
        simp only [h1] at hf
        cases h2 : (env.c.FindLimitAll db 100).2 <;> simp [h2] at hf
    · cases h1 : env.raises db
          (Call.CreateQuery { Resource := "EnrollmentRequest", Query := r.RawQuery }) with
      | some y =>
        simp only [h1] at hf
        injection hf with hf
        injection hf with _ hf
        rw [← hf]
      | none =>
        simp only [h1] at hf
        cases h2 : (env.CreateQueryAll db
          { Resource := "EnrollmentRequest", Query := r.RawQuery }).2 <;> simp [h2] at hf
  have hresp : resp = (EnrollmentRequestIndexRecover env x w1).response := by
    simp only [resp, EnrollmentRequestIndexHandler, hf]
  rw [hresp]
  cases x with
  | searchError e =>
    simp [EnrollmentRequestIndexRecover, World.response, World.HeaderSet, World.WriteHeader,
      World.Encode, hw, ResponseWriter.finish, ResponseWriter.Write,
      ResponseWriter.WriteHeader, ResponseWriter.fresh]
  | other d =>
    simp [EnrollmentRequestIndexRecover, World.response, World.HeaderSet, World.WriteHeader,
      World.Encode, hw, ResponseWriter.finish, ResponseWriter.Write,
      ResponseWriter.WriteHeader, ResponseWriter.fresh]

/-- C6, at a search compiler that panics with a typed search error of status 400: the
response has status 400 and the encoded outcome as body. -/
theorem index_recovery_witness :
    EnrollmentRequestIndexBody faultyEnv { id := "", RawQuery := "bad", Body := "" }
        (World.init []) =
      Except.error
        (Recovered.searchError
          { HTTPStatus := 400
            OperationOutcome := { Issue := [{ Severity := "error", Code := "invalid" }] } },
          (World.init []).call
            (Call.CreateQuery { Resource := "EnrollmentRequest", Query := "bad" })) ∧
    (EnrollmentRequestIndexHandler faultyEnv { id := "", RawQuery := "bad", Body := "" }
        (World.init [])).response.status = 400 ∧
    (EnrollmentRequestIndexHandler faultyEnv { id := "", RawQuery := "bad", Body := "" }
        (World.init [])).response.body = "outcome\n" :=
  ⟨rfl,
    index_recovery faultyEnv { id := "", RawQuery := "bad", Body := "" } []
      (Recovered.searchError
        { HTTPStatus := 400
          OperationOutcome := { Issue := [{ Severity := "error", Code := "invalid" }] } })
      ((World.init []).call
        (Call.CreateQuery { Resource := "EnrollmentRequest", Query := "bad" })) rfl⟩

/-- C7, as amended: the response carries `Content-Type: application/json; charset=utf-8` and
`Access-Control-Allow-Origin: *` from the three index handlers where the store or the search
reports no error and nothing panics, from the three show handlers where the id is valid and the
record is found, and from the EnrollmentRequest create and update handlers where the id is
valid, the body decodes, the store accepts the write and the host name is found. The three
delete handlers and the create and update handlers of OperationOutcome and RelatedPerson never
send the two headers. -/
theorem json_headers_where_written_first (env : Env σ α) (r : Request) (db : σ) :
    ((∀ c, env.raises db c = none) →
      (if (env.ParseForm r).length = 0 then (env.c.FindLimitAll db 100).2
        else (env.CreateQueryAll db
          { Resource := "EnrollmentRequest", Query := r.RawQuery }).2) = none →
      (EnrollmentRequestIndexHandler env r (World.init db)).response.hasJsonHeaders) ∧
    ((env.c.FindLimitAll db 100).2 = none →
      (OperationOutcomeIndexHandler env r (World.init db)).response.hasJsonHeaders ∧
      (RelatedPersonIndexHandler env r (World.init db)).response.hasJsonHeaders) ∧
    (∀ (h : IsObjectIdHex r.id = true) (x : Resource α),
      env.c.FindOne db (ObjectIdHex r.id h).Hex = Except.ok x →
      (EnrollmentRequestShowHandler env r (World.init db)).response.hasJsonHeaders ∧
      (OperationOutcomeShowHandler env r (World.init db)).response.hasJsonHeaders ∧
      (RelatedPersonShowHandler env r (World.init db)).response.hasJsonHeaders) ∧
    ((env.Decode r.Body).2 = none →
      (env.c.Insert db
        { Id := env.NewObjectId.Hex, payload := (env.Decode r.Body).1.payload }).2 = none →
      env.Hostname.2 = none →
      (EnrollmentRequestCreateHandler env r (World.init db)).response.hasJsonHeaders) ∧
    (∀ h : IsObjectIdHex r.id = true,
      (env.Decode r.Body).2 = none →
      (env.c.Update db (ObjectIdHex r.id h).Hex
        { Id := (ObjectIdHex r.id h).Hex, payload := (env.Decode r.Body).1.payload }).2 = none →
      (EnrollmentRequestUpdateHandler env r (World.init db)).response.hasJsonHeaders) ∧
    (¬ (EnrollmentRequestDeleteHandler env r (World.init db)).response.hasJsonHeaders ∧
      ¬ (OperationOutcomeDeleteHandler env r (World.init db)).response.hasJsonHeaders ∧
      ¬ (RelatedPersonDeleteHandler env r (World.init db)).response.hasJsonHeaders ∧
      ¬ (OperationOutcomeCreateHandler env r (World.init db)).response.hasJsonHeaders ∧
      ¬ (RelatedPersonCreateHandler env r (World.init db)).response.hasJsonHeaders ∧
      ¬ (OperationOutcomeUpdateHandler env r (World.init db)).response.hasJsonHeaders ∧
      ¬ (RelatedPersonUpdateHandler env r (World.init db)).response.hasJsonHeaders) := by
  have k1 : ("Content-Type" == "Access-Control-Allow-Origin") = false := by decide
  have k2 : ("Access-Control-Allow-Origin" == "Content-Type") = false := by decide
  have k3 : ("Access-Control-Allow-Origin" == "X-Content-Type-Options") = false := by decide
  have k4 : ("Access-Control-Allow-Origin" == "Location") = false := by decide
  have k5 : ("Content-Type" == "Location") = false := by decide
  have k6 : ("Content-Type" == "X-Content-Type-Options") = false := by decide
  have k7 : ("Location" == "Content-Type") = false := by decide
  have k8 : ("Location" == "Access-Control-Allow-Origin") = false := by decide
  have k9 : ("Location" == "X-Content-Type-Options") = false := by decide
  have k10 : ("X-Content-Type-Options" == "Content-Type") = false := by decide
  refine ⟨?_, ?_, ?_, ?_, ?_, ?_⟩
  · intro hr hy
    simp only [EnrollmentRequestIndexHandler, EnrollmentRequestIndexBody, World.init,
      World.call, hr]
    by_cases hform : (env.ParseForm r).length = 0
    · simp only [hform, if_true] at hy ⊢
      simp [hy, World.Encode, World.HeaderSet, World.contextSet, World.response,
        ResponseWriter.hasJsonHeaders, ResponseWriter.finish, ResponseWriter.Write,
        ResponseWriter.WriteHeader, ResponseWriter.fresh, Header.Get, Header.Set, List.lookup,
        k1, k2]
    · simp only [hform, if_false] at hy ⊢
      simp [hy, World.Encode, World.HeaderSet, World.contextSet, World.response,
        ResponseWriter.hasJsonHeaders, ResponseWriter.finish, ResponseWriter.Write,
        ResponseWriter.WriteHeader, ResponseWriter.fresh, Header.Get, Header.Set, List.lookup,
        k1, k2]
  · intro hy
    constructor <;>
    simp [OperationOutcomeIndexHandler, RelatedPersonIndexHandler, World.init, World.call, hy,
      World.Encode, World.HeaderSet, World.response,
      ResponseWriter.hasJsonHeaders, ResponseWriter.finish, ResponseWriter.Write,
      ResponseWriter.WriteHeader, ResponseWriter.fresh, Header.Get, Header.Set, List.lookup,
      k1, k2]
  · intro h x hx
    refine ⟨?_, ?_, ?_⟩ <;>
    simp [EnrollmentRequestShowHandler, LoadEnrollmentRequest, OperationOutcomeShowHandler,
      RelatedPersonShowHandler, World.init, World.call, h, hx, World.contextSet,
      World.contextGet, World.Encode, World.HeaderSet, World.response,
      ResponseWriter.hasJsonHeaders, ResponseWriter.finish, ResponseWriter.Write,
      ResponseWriter.WriteHeader, ResponseWriter.fresh, Header.Get, Header.Set, List.lookup,
      k1, k2]
  · intro hd hi hh
    simp [EnrollmentRequestCreateHandler, World.init, World.call, hd, hi, hh,
      World.contextSet, World.Encode, World.HeaderSet, World.HeaderAdd, World.WriteHeader,
      World.response, ResponseWriter.hasJsonHeaders, ResponseWriter.finish,
      ResponseWriter.Write, ResponseWriter.WriteHeader, ResponseWriter.fresh, Header.Get,
      Header.Set, Header.Add, List.lookup, k1, k2, k4, k5, k7, k8]
  · intro h hd hu
    simp [EnrollmentRequestUpdateHandler, World.init, World.call, h, hd, hu,
      World.contextSet, World.Encode, World.HeaderSet, World.response,
      ResponseWriter.hasJsonHeaders, ResponseWriter.finish, ResponseWriter.Write,
      ResponseWriter.WriteHeader, ResponseWriter.fresh, Header.Get, Header.Set, List.lookup,
      k1, k2]
  · refine ⟨?_, ?_, ?_, ?_, ?_, ?_, ?_⟩ <;>
    by_cases h : IsObjectIdHex r.id = true <;>
    cases hd : (env.Decode r.Body).2 <;>
    cases hh : env.Hostname.2 <;>
    simp only [EnrollmentRequestDeleteHandler, OperationOutcomeDeleteHandler,
      RelatedPersonDeleteHandler, OperationOutcomeCreateHandler, RelatedPersonCreateHandler,
      OperationOutcomeUpdateHandler, RelatedPersonUpdateHandler, World.init, World.call,
      World.Error, World.contextSet, World.HeaderAdd, h, hd, hh, dite_true, dite_false] <;>
    (repeat' split) <;>
    simp [World.response, ResponseWriter.hasJsonHeaders, ResponseWriter.finish,
      ResponseWriter.Error, ResponseWriter.Write, ResponseWriter.WriteHeader,
      ResponseWriter.fresh, Header.Get, Header.Set, Header.Add, List.lookup, k1, k2, k3, k4,
      k5, k6, k7, k8, k9, k10, empty_ne_star]

/-- C7 as amended, at an EnrollmentRequest listed, shown, created and updated without error:
each response carries the two headers. -/
theorem json_headers_where_written_first_witness :
    (EnrollmentRequestIndexHandler sampleEnv { id := "", RawQuery := "", Body := "" }
      (World.init [sampleRecord])).response.hasJsonHeaders ∧
    (EnrollmentRequestShowHandler sampleEnv { id := sampleId, RawQuery := "", Body := "" }
      (World.init [sampleRecord])).response.hasJsonHeaders ∧
    (EnrollmentRequestCreateHandler sampleEnv { id := "", RawQuery := "", Body := "P" }
      (World.init [sampleRecord])).response.hasJsonHeaders ∧
    (EnrollmentRequestUpdateHandler sampleEnv { id := sampleId, RawQuery := "", Body := "Q" }
      (World.init [sampleRecord])).response.hasJsonHeaders :=
  ⟨(json_headers_where_written_first sampleEnv { id := "", RawQuery := "", Body := "" }
      [sampleRecord]).1 (fun _ => rfl) rfl,
    ((json_headers_where_written_first sampleEnv { id := sampleId, RawQuery := "", Body := "" }
      [sampleRecord]).2.2.1 (by decide) sampleRecord rfl).1,
    (json_headers_where_written_first sampleEnv { id := "", RawQuery := "", Body := "P" }
      [sampleRecord]).2.2.2.1 rfl rfl rfl,
    (json_headers_where_written_first sampleEnv { id := sampleId, RawQuery := "", Body := "Q" }
      [sampleRecord]).2.2.2.2.1 (by decide) rfl rfl⟩

/-- C7, the claim as stated fails: neither header is on the response to a delete that
succeeds, to a show whose record is not found, or to an OperationOutcome create that
succeeds. -/
theorem json_headers_missing :
    ¬ (EnrollmentRequestDeleteHandler sampleEnv { id := sampleId, RawQuery := "", Body := "" }
        (World.init [sampleRecord])).response.hasJsonHeaders ∧
    ¬ (EnrollmentRequestShowHandler sampleEnv { id := sampleId, RawQuery := "", Body := "" }
        (World.init [])).response.hasJsonHeaders ∧
    ¬ (OperationOutcomeCreateHandler sampleEnv { id := "", RawQuery := "", Body := "P" }
        (World.init [])).response.hasJsonHeaders := by
  decide

/-- C8: for a valid path id, each delete handler makes one remove under the canonical id.
Where the remove fails the response has status 500 and the store's error text as body and no
context key is set; where it succeeds the response has status 200 and no body, and the
EnrollmentRequest handler has set the context keys "EnrollmentRequest" to the id,
"Resource" to "EnrollmentRequest" and "Action" to "delete". So the status is 500 exactly where
the remove fails, as it does in the store in memory where no record has the id. -/
theorem delete_outcome (env : Env σ α) (r : Request) (db : σ)
    (h : IsObjectIdHex r.id = true) :
    let key := (ObjectIdHex r.id h).Hex
    let removed := env.c.Remove db key
    let e := EnrollmentRequestDeleteHandler env r (World.init db)
    let o := OperationOutcomeDeleteHandler env r (World.init db)
    let p := RelatedPersonDeleteHandler env r (World.init db)
    (e.calls = [Call.Remove key] ∧ o.calls = [Call.Remove key] ∧ p.calls = [Call.Remove key]) ∧
    (∀ err, removed.2 = some err →
      (e.response.status = 500 ∧ e.response.body = err ++ "\n" ∧ e.ctx = []) ∧
      (o.response.status = 500 ∧ o.response.body = err ++ "\n" ∧ o.ctx = []) ∧
      (p.response.status = 500 ∧ p.response.body = err ++ "\n" ∧ p.ctx = [])) ∧
    (removed.2 = none →
      (e.response.status = 200 ∧ e.response.body = "" ∧
        e.contextGet "EnrollmentRequest" = Value.str key ∧
        e.contextGet "Resource" = Value.str "EnrollmentRequest" ∧
        e.contextGet "Action" = Value.str "delete") ∧
      (o.response.status = 200 ∧ o.response.body = "") ∧
      (p.response.status = 200 ∧ p.response.body = "")) ∧
    ((e.response.status = 500 ↔ removed.2 ≠ none) ∧
      (o.response.status = 500 ↔ removed.2 ≠ none) ∧
      (p.response.status = 500 ↔ removed.2 ≠ none)) ∧
    (∀ (s : List (Resource α)) (k : String), (∀ x ∈ s, x.Id ≠ k) →
      (memCollection.Remove s k).2 = some "not found") := by
  intro key removed e o p
  have he : e = EnrollmentRequestDeleteHandler env r (World.init db) := rfl
  have ho : o = OperationOutcomeDeleteHandler env r (World.init db) := rfl
  have hp : p = RelatedPersonDeleteHandler env r (World.init db) := rfl
  simp only [EnrollmentRequestDeleteHandler, OperationOutcomeDeleteHandler,
    RelatedPersonDeleteHandler, World.init, World.call, World.Error, World.contextSet, h,
    dite_true] at he ho hp
  have hmem : ∀ (s : List (Resource α)) (k : String), (∀ x ∈ s, x.Id ≠ k) →
      (memCollection.Remove s k).2 = some "not found" :=
    fun s k hk => memCollection_Remove_absent s k hk
  cases hrem : removed.2 with
  | none =>
    have hrem2 : (env.c.Remove db (ObjectIdHex r.id h).Hex).2 = none := hrem
    simp only [hrem2] at he ho hp
    rw [he, ho, hp]
    refine ⟨?_, ?_, ?_, ?_, hmem⟩ <;>
    simp [World.response, World.contextGet, ResponseWriter.finish, ResponseWriter.WriteHeader,
      ResponseWriter.fresh, List.lookup, key,
      (by decide : ("EnrollmentRequest" == "Action") = false),
      (by decide : ("EnrollmentRequest" == "Resource") = false),
      (by decide : ("Resource" == "Action") = false)]
  | some err =>
    have hrem2 : (env.c.Remove db (ObjectIdHex r.id h).Hex).2 = some err := hrem
    simp only [hrem2] at he ho hp
    rw [he, ho, hp]
    refine ⟨?_, ?_, ?_, ?_, hmem⟩ <;>
    simp [World.response, ResponseWriter.finish, ResponseWriter.Error, ResponseWriter.Write,
      ResponseWriter.WriteHeader, ResponseWriter.fresh, key]

/-- C8, at a valid id that no record has and at the id of a stored record: the first delete is
answered with 500 and "not found", the second with 200 and no body. -/
theorem delete_outcome_witness :
    IsObjectIdHex sampleId = true ∧
    (sampleEnv.c.Remove [] sampleHex).2 = some "not found" ∧
    ((EnrollmentRequestDeleteHandler sampleEnv { id := sampleId, RawQuery := "", Body := "" }
        (World.init [])).response.status = 500 ∧
      (EnrollmentRequestDeleteHandler sampleEnv { id := sampleId, RawQuery := "", Body := "" }
        (World.init [])).response.body = "not found\n" ∧
      (EnrollmentRequestDeleteHandler sampleEnv { id := sampleId, RawQuery := "", Body := "" }
        (World.init [])).ctx = []) ∧
    (sampleEnv.c.Remove [sampleRecord] sampleHex).2 = none ∧
    ((EnrollmentRequestDeleteHandler sampleEnv { id := sampleId, RawQuery := "", Body := "" }
        (World.init [sampleRecord])).response.status = 200 ∧
      (EnrollmentRequestDeleteHandler sampleEnv { id := sampleId, RawQuery := "", Body := "" }
        (World.init [sampleRecord])).response.body = "" ∧
      (EnrollmentRequestDeleteHandler sampleEnv { id := sampleId, RawQuery := "", Body := "" }
        (World.init [sampleRecord])).contextGet "EnrollmentRequest" = Value.str sampleHex) :=
  ⟨by decide, by decide,
    ((delete_outcome sampleEnv { id := sampleId, RawQuery := "", Body := "" } []
      (by decide)).2.1 "not found" (by decide)).1,
    by decide,
    ⟨((delete_outcome sampleEnv { id := sampleId, RawQuery := "", Body := "" } [sampleRecord]
      (by decide)).2.2.1 (by decide)).1.1,
     ((delete_outcome sampleEnv { id := sampleId, RawQuery := "", Body := "" } [sampleRecord]
      (by decide)).2.2.1 (by decide)).1.2.1,
     ((delete_outcome sampleEnv { id := sampleId, RawQuery := "", Body := "" } [sampleRecord]
      (by decide)).2.2.1 (by decide)).1.2.2.1⟩⟩

end Fhir
